import Mathlib

/-!
Verification of the V2X RSU attack impact analysis tooling: a shallow
embedding of the scenario-generation pipeline (automated-file-generator.py)
and of the comparative analysis engine (log_visualization.py), together with
theorems settling the specified properties.
-/

set_option maxHeartbeats 1000000

/-- Minimum required size for a valid OSM file in bytes, 10 KB. -/
def MIN_OSM_FILE_SIZE : Nat := 1024 * 10

/-- Decision of Step 1 of SumoWorker.create_files: download is assumed needed
unless an existing file passes the size check, which requires the file to
exist and its size to be strictly greater than MIN_OSM_FILE_SIZE. -/
def should_download (osm_file_exists : Bool) (file_size : Nat) : Bool :=
  if osm_file_exists then
    if MIN_OSM_FILE_SIZE < file_size then false else true
  else true

/-- Geographic bounding box as delivered by the map widget. -/
structure Bbox where
  west : ℚ
  south : ℚ
  east : ℚ
  north : ℚ
deriving DecidableEq, Repr

/-- The dummy all-zero bounds set by SumoApp.handle_bounds when no area is
selected but a valid OSM file exists. -/
def zero_bbox : Bbox := ⟨0, 0, 0, 0⟩

/-- Action taken by Step 1 of create_files: either reuse the existing OSM
file or invoke the osmGet downloader with the given bounding box. -/
inductive AcquireAction where
  | useExisting
  | download (b : Bbox)
deriving DecidableEq, Repr

/-- Step 1 of SumoWorker.create_files, abstracted to its decision: if the
size check fails the downloader is invoked with the configured bbox, with no
further validity check on the bbox itself. -/
def acquire_map (bbox : Bbox) (osm_file_exists : Bool) (file_size : Nat) :
    AcquireAction :=
  if should_download osm_file_exists file_size then .download bbox
  else .useExisting

/-- SumoApp.handle_bounds: given the selection returned by the map widget
(none when nothing was drawn) and the state of the OSM file, either returns
the bbox the worker is started with, or none when the process is stopped
with a warning. The all-zero dummy bounds are substituted only when no area
is selected and a valid file exists. -/
def handle_bounds (bounds : Option Bbox) (osm_file_exists : Bool)
    (file_size : Nat) : Option Bbox :=
  let is_valid_file := osm_file_exists && decide (MIN_OSM_FILE_SIZE < file_size)
  match bounds with
  | none => if is_valid_file then some zero_bbox else none
  | some b => some b

/-- Net bounding rectangle extracted from the convBoundary attribute of the
location element of the .net.xml file. -/
structure Boundary where
  min_x : ℚ
  min_y : ℚ
  max_x : ℚ
  max_y : ℚ
deriving DecidableEq, Repr

/-- Fixed padding fraction used by create_files, 50 percent. -/
def PERCENTAGE_INCREASE : ℚ := 0.50

/-- Original map width, max_x - min_x. -/
def original_width (b : Boundary) : ℚ := b.max_x - b.min_x

/-- Original map height, max_y - min_y. -/
def original_height (b : Boundary) : ℚ := b.max_y - b.min_y

/-- Total buffer in x: original width times the padding fraction. -/
def BUFFER_SIZE_X (b : Boundary) : ℚ := original_width b * PERCENTAGE_INCREASE

/-- Total buffer in y: original height times the padding fraction. -/
def BUFFER_SIZE_Y (b : Boundary) : ℚ := original_height b * PERCENTAGE_INCREASE

/-- Shift applied to the RSU in x: half the buffer size. -/
def OFFSET_X (b : Boundary) : ℚ := BUFFER_SIZE_X b / 2

/-- Shift applied to the RSU in y: half the buffer size. -/
def OFFSET_Y (b : Boundary) : ℚ := BUFFER_SIZE_Y b / 2

/-- Final playground width: original width plus total buffer. -/
def play_ground_x_final (b : Boundary) : ℚ := original_width b + BUFFER_SIZE_X b

/-- Final playground height: original height plus total buffer. -/
def play_ground_y_final (b : Boundary) : ℚ := original_height b + BUFFER_SIZE_Y b

/-- Shifted RSU x position: half the original width plus the x offset. -/
def rsu_x_shifted (b : Boundary) : ℚ := original_width b / 2 + OFFSET_X b

/-- Shifted RSU y position: half the original height plus the y offset. -/
def rsu_y_shifted (b : Boundary) : ℚ := original_height b / 2 + OFFSET_Y b

/-- The numeric and name slots substituted into the omnetpp.ini template by
SumoWorker.generate_omnetpp_ini; every other character of the generated file
is fixed template text. -/
structure OmnetppIni where
  playgroundSizeX : ℚ
  playgroundSizeY : ℚ
  rsu_mobility_x : ℚ
  rsu_mobility_y : ℚ
  sim_time_limit : ℤ
  launchConfig : String
  out_name : String
deriving DecidableEq, Repr

/-- SumoWorker.generate_omnetpp_ini: writes the detailed parameter file with
the given playground sizes, RSU position and simulation end time substituted
into the template. -/
def generate_omnetpp_ini (filename : String) (pg_x pg_y rsu_x rsu_y : ℚ)
    (end_time : ℤ) : OmnetppIni :=
  { playgroundSizeX := pg_x
    playgroundSizeY := pg_y
    rsu_mobility_x := rsu_x
    rsu_mobility_y := rsu_y
    sim_time_limit := end_time
    launchConfig := filename ++ ".launchd.xml"
    out_name := filename ++ ".omnetpp.ini" }

/-- Step 7 of create_files, geometry part: from the parsed boundary, compute
the buffered playground and shifted RSU position and write them into the
parameter file. -/
def step7_ini (filename : String) (b : Boundary) (end_time : ℤ) : OmnetppIni :=
  generate_omnetpp_ini filename (play_ground_x_final b) (play_ground_y_final b)
    (rsu_x_shifted b) (rsu_y_shifted b) end_time

/-- State of the location element of the converted network file: the element
may be missing, its convBoundary attribute may be missing, and each of the
comma-separated tokens either parses as a number or does not. -/
inductive NetLocation where
  | missing
  | location (convBoundary : Option (List (Option ℚ)))
deriving DecidableEq, Repr

/-- Coordinate extraction of Step 7 of create_files: requires the location
element to be present, the convBoundary attribute to be present, and exactly
four tokens each parsing as a number; any other shape raises and the stage
fails. No further check is made on the resulting rectangle. -/
def extract_boundary : NetLocation → Option Boundary
  | .missing => none
  | .location none => none
  | .location (some toks) =>
    match toks with
    | [some a, some b, some c, some d] => some ⟨a, b, c, d⟩
    | _ => none

/-- Step 7 of create_files end to end: parse the coordinates and, on
success, write the detailed parameter file; on failure no parameter file is
produced. -/
def step7_write_ini (filename : String) (loc : NetLocation) (end_time : ℤ) :
    Option OmnetppIni :=
  (extract_boundary loc).map fun b => step7_ini filename b end_time

/-- Step 4 of create_files: the per-vehicle spawn period end_time divided by
num_trips; division by zero raises, modelled as none. -/
def trip_period (end_time num_trips : ℤ) : Option ℚ :=
  if num_trips = 0 then none
  else some ((end_time : ℚ) / (num_trips : ℚ))

/-- Attributes of one tripinfo record, with the mandatory numeric attributes
already parsed and the optional rerouteNo attribute as an optional integer
(absent attribute modelled as none). -/
structure Tripinfo where
  depart : ℚ
  duration : ℚ
  timeLoss : ℚ
  waitingTime : ℚ
  routeLength : ℚ
  rerouteNo : Option ℤ
deriving DecidableEq, Repr

/-- Parsed contents of one tripinfo output file as built by
AnalysisWorker.parse_trip. -/
structure TripData where
  depart : List ℚ
  duration : List ℚ
  timeLoss : List ℚ
  waitingTime : List ℚ
  routeLength : List ℚ
  count : Nat
  reroutes : Nat
deriving DecidableEq, Repr

/-- AnalysisWorker.parse_trip: count is the number of tripinfo records and
reroutes counts records whose rerouteNo attribute, defaulted to 0 when
absent, is strictly positive. -/
def parse_trip (trips : List Tripinfo) : TripData :=
  { depart := trips.map (·.depart)
    duration := trips.map (·.duration)
    timeLoss := trips.map (·.timeLoss)
    waitingTime := trips.map (·.waitingTime)
    routeLength := trips.map (·.routeLength)
    count := trips.length
    reroutes := trips.countP fun t => decide (0 < t.rerouteNo.getD 0) }

/-- Reroute percentage as written into the research summary of
AnalysisWorker.run: reroutes divided by count times 100, with no guard, so a
zero count raises a division fault, modelled as none. -/
def reroute_rate_pct (d : TripData) : Option ℚ :=
  if d.count = 0 then none
  else some ((d.reroutes : ℚ) / (d.count : ℚ) * 100)

/-- Speed reduction percentage of AnalysisWorker.run, which in contrast to
the reroute rate is guarded: 0 is substituted when the clean mean speed is
not positive. -/
def speed_reduction_pct (clean_mean_speed blocked_mean_speed : ℚ) : ℚ :=
  if 0 < clean_mean_speed then
    (clean_mean_speed - blocked_mean_speed) / clean_mean_speed * 100
  else 0

/-- The three file names removed by SumoWorker.cleanup. -/
def cleanup_targets (filename : String) : List String :=
  ["routes.rou.xml", filename ++ ".rou.alt.xml", filename ++ ".trip.xml"]

/-- SumoWorker.cleanup applied to the set of files present on disk: each of
the three target names is removed when present, every other file is left
untouched. -/
def cleanup (filename : String) (files : List String) : List String :=
  files.filter fun f => decide (f ∉ cleanup_targets filename)

/-- Tokenizer loop for py_split: cur holds the characters of the token being
read, in reverse. -/
def py_split_chars : List Char → List Char → List String
  | [], cur => if cur.isEmpty then [] else [⟨cur.reverse⟩]
  | c :: cs, cur =>
    if c.isWhitespace then
      if cur.isEmpty then py_split_chars cs []
      else ⟨cur.reverse⟩ :: py_split_chars cs []
    else py_split_chars cs (c :: cur)

/-- Split on runs of whitespace, dropping empty pieces, as the argumentless
string split does in the source language. -/
def py_split (s : String) : List String := py_split_chars s.data []

/-- The edge identifiers contributed by one vehicle record of the route
file: none when the vehicle has no route element or no edges attribute, and
an empty attribute contributes nothing. -/
def vehicle_edges (v : Option String) : List String :=
  match v with
  | none => []
  | some s => if s = "" then [] else py_split s

/-- One step of the running counter of most_used_route_finder: increment the
count of an already-seen identifier in place, or append a fresh identifier
with count one at the end, preserving first-seen order of the keys. -/
def counter_update_one (c : List (String × Nat)) (k : String) :
    List (String × Nat) :=
  match c with
  | [] => [(k, 1)]
  | (k', n) :: rest =>
    if k = k' then (k', n + 1) :: rest
    else (k', n) :: counter_update_one rest k

/-- Update the running counter with a list of edge identifiers. -/
def counter_update (c : List (String × Nat)) (ks : List String) :
    List (String × Nat) :=
  ks.foldl counter_update_one c

/-- The loop of most_used_route_finder over the vehicle records: builds the
edge counter and the total number of edges traversed. -/
def analyze_fold (vehicles : List (Option String)) :
    List (String × Nat) × Nat :=
  vehicles.foldl
    (fun acc v =>
      let es := vehicle_edges v
      (counter_update acc.1 es, acc.2 + es.length))
    ([], 0)

/-- All edge identifiers of the route file in traversal order. -/
def all_edges (vehicles : List (Option String)) : List String :=
  (vehicles.map vehicle_edges).flatten

/-- Comparison used to rank counter entries: descending by count. Together
with the stability of the sort below this reproduces the semantics of
most_common, which prefers first-seen entries among equal counts. -/
def count_ge : String × Nat → String × Nat → Bool :=
  fun a b => decide (b.2 ≤ a.2)

/-- Ranking of the n highest-count entries of a counter, ordered descending
by count with ties kept in first-seen order, as most_common produces. -/
def most_common (c : List (String × Nat)) (n : Nat) : List (String × Nat) :=
  (c.mergeSort count_ge).take n

/-- Result of the edge-usage analysis: the returned ranking and the two
totals written to the report. -/
structure EdgeReport where
  top : List (String × Nat)
  totalUniqueEdges : Nat
  totalTraversals : Nat
deriving DecidableEq, Repr

/-- SumoWorker.most_used_route_finder on an already-parsed route file: count
one traversal per occurrence of each whitespace-separated identifier in each
vehicle route, report the number of distinct identifiers and the total
number of traversals, and return the top_n ranking. -/
def most_used_route_finder (vehicles : List (Option String)) (top_n : Nat) :
    EdgeReport :=
  let f := analyze_fold vehicles
  { top := most_common f.1 top_n
    totalUniqueEdges := f.1.length
    totalTraversals := f.2 }

/-- Exit status of each external tool the pipeline may invoke: true means
exit code zero. -/
structure ToolExit where
  osmGet : Bool
  netconvert : Bool
  polyconvert : Bool
  randomTrips : Bool
  duarouter : Bool
deriving DecidableEq, Repr

/-- External tools invoked by create_files. -/
inductive Tool where
  | osmGet
  | netconvert
  | polyconvert
  | randomTrips
  | duarouter
deriving DecidableEq, Repr

/-- Point at which create_files gives up and returns failure. -/
inductive StageTag where
  | osmDownload
  | downloadOutputMissing
  | netconvert
  | randomTrips
  | duarouter
  | geometry
deriving DecidableEq, Repr

/-- Result of one run of create_files: normal success, failure returned at a
stage (the log names the stage), or an uncaught exception propagating to the
generic handler of SumoWorker.run. -/
inductive Outcome where
  | ok
  | fail (stage : StageTag)
  | exn
deriving DecidableEq, Repr

/-- Observable trace of one run of create_files: the outcome, the external
tools invoked in order, and the files present on disk that the run produced
(after cleanup on the success path). -/
structure Trace where
  outcome : Outcome
  invoked : List Tool
  written : List String
deriving DecidableEq, Repr

/-- Environment and configuration of one run of create_files: the worker
configuration, the state of the OSM file, whether the downloader output file
can be located, whether the polyconvert typemap exists, the location element
of the converted network, and the exit statuses of the external tools. -/
structure PipelineInput where
  filename : String
  bbox : Bbox
  end_time : ℤ
  num_trips : ℤ
  osm_exists : Bool
  osm_size : Nat
  download_output_found : Bool
  typemap_exists : Bool
  net_location : NetLocation
  tools : ToolExit
deriving Repr

/-- Steps 7 and 8 of create_files: write the launch descriptor and the sumo
configuration, then extract the coordinates (failure aborts before the
detailed parameter file is written), write the parameter file and clean up
the temporary files. -/
def create_files_step7 (inp : PipelineInput) (inv : List Tool)
    (wr : List String) : Trace :=
  let fn := inp.filename
  let wr := wr ++ [fn ++ ".launchd.xml", fn ++ ".sumo.cfg"]
  match extract_boundary inp.net_location with
  | none => ⟨.fail .geometry, inv, wr⟩
  | some _ =>
    let wr := wr ++ [fn ++ ".omnetpp.ini"]
    ⟨.ok, inv, cleanup fn wr⟩

/-- Step 6 of create_files: route analysis and creation of the log
directory; the analysis is best-effort and writes nothing. -/
def create_files_step6 (inp : PipelineInput) (inv : List Tool)
    (wr : List String) : Trace :=
  create_files_step7 inp inv (wr ++ [inp.filename ++ "-logs"])

/-- Step 5 of create_files: duarouter over the trips and network; mandatory. -/
def create_files_step5 (inp : PipelineInput) (inv : List Tool)
    (wr : List String) : Trace :=
  let fn := inp.filename
  if inp.tools.duarouter then
    create_files_step6 inp (inv ++ [.duarouter])
      (wr ++ [fn ++ ".rou.xml", fn ++ ".rou.alt.xml"])
  else ⟨.fail .duarouter, inv ++ [.duarouter], wr⟩

/-- Step 4 of create_files: compute the spawn period, then run the trip
generator; a zero vehicle count raises before the tool is invoked. -/
def create_files_step4 (inp : PipelineInput) (inv : List Tool)
    (wr : List String) : Trace :=
  let fn := inp.filename
  match trip_period inp.end_time inp.num_trips with
  | none => ⟨.exn, inv, wr⟩
  | some _ =>
    if inp.tools.randomTrips then
      create_files_step5 inp (inv ++ [.randomTrips]) (wr ++ [fn ++ ".trip.xml"])
    else ⟨.fail .randomTrips, inv ++ [.randomTrips], wr⟩

/-- Step 3 of create_files: polyconvert, invoked only when the typemap
exists; best-effort, its exit status is ignored. -/
def create_files_step3 (inp : PipelineInput) (inv : List Tool)
    (wr : List String) : Trace :=
  let fn := inp.filename
  let inv := if inp.typemap_exists then inv ++ [.polyconvert] else inv
  let wr :=
    if inp.typemap_exists && inp.tools.polyconvert then wr ++ [fn ++ ".poly.xml"]
    else wr
  create_files_step4 inp inv wr

/-- Step 2 of create_files: netconvert; mandatory, failure aborts. -/
def create_files_step2 (inp : PipelineInput) (inv : List Tool)
    (wr : List String) : Trace :=
  if inp.tools.netconvert then
    create_files_step3 inp (inv ++ [.netconvert])
      (wr ++ [inp.filename ++ ".net.xml"])
  else ⟨.fail .netconvert, inv ++ [.netconvert], wr⟩

/-- SumoWorker.create_files as a trace over the external environment: Step 1
reuses or downloads the map, then the remaining steps run in order with
fail-fast on every mandatory stage. -/
def create_files (inp : PipelineInput) : Trace :=
  let fn := inp.filename
  if should_download inp.osm_exists inp.osm_size then
    if inp.tools.osmGet then
      if inp.download_output_found then
        create_files_step2 inp [.osmGet] [fn ++ ".osm"]
      else ⟨.fail .downloadOutputMissing, [.osmGet], []⟩
    else ⟨.fail .osmDownload, [.osmGet], []⟩
  else create_files_step2 inp [] []

/-- Keys of a running counter, in first-seen order. -/
def counter_keys (c : List (String × Nat)) : List String := c.map Prod.fst

theorem string_append_left_cancel {s a b : String} (h : s ++ a = s ++ b) :
    a = b := by
  apply String.ext
  have hd := congrArg String.data h
  simp only [String.data_append] at hd
  exact List.append_cancel_left hd

theorem string_append_right_cancel {a b s : String} (h : a ++ s = b ++ s) :
    a = b := by
  apply String.ext
  have hd := congrArg String.data h
  simp only [String.data_append] at hd
  exact List.append_cancel_right hd

theorem data_suffix_of_append_eq {a s t : String} (h : a ++ s = t) :
    s.data <:+ t.data := by
  refine ⟨a.data, ?_⟩
  have hd := congrArg String.data h
  simpa only [String.data_append] using hd

theorem ne_of_suffix_ne (fn : String) {s t : String} (h : s ≠ t) :
    fn ++ s ≠ fn ++ t :=
  fun hc => h (string_append_left_cancel hc)

theorem count_ge_trans (a b c : String × Nat) :
    count_ge a b → count_ge b c → count_ge a c := by
  simp only [count_ge, decide_eq_true_eq]
  omega

theorem count_ge_total (a b : String × Nat) :
    count_ge a b || count_ge b a := by
  simp only [count_ge, Bool.or_eq_true, decide_eq_true_eq]
  omega

theorem keys_counter_update_one (c : List (String × Nat)) (k : String) :
    counter_keys (counter_update_one c k)
      = if k ∈ counter_keys c then counter_keys c
        else counter_keys c ++ [k] := by
  induction c with
  | nil => simp [counter_update_one, counter_keys]
  | cons hd tl ih =>
    obtain ⟨k', n⟩ := hd
    by_cases hk : k = k'
    · simp [counter_update_one, counter_keys, hk]
    · by_cases hm : k ∈ counter_keys tl
      all_goals
        simp only [counter_keys] at hm
        simp only [counter_update_one, if_neg hk, counter_keys,
          List.map_cons] at ih ⊢
        rw [ih]
        simp [hm, hk]

theorem counter_update_one_keys_props (c : List (String × Nat)) (k : String)
    (h : (counter_keys c).Nodup) :
    (counter_keys (counter_update_one c k)).Nodup ∧
    (counter_keys (counter_update_one c k)).toFinset
      = insert k (counter_keys c).toFinset := by
  rw [keys_counter_update_one]
  by_cases hm : k ∈ counter_keys c
  · simp only [if_pos hm]
    exact ⟨h, (Finset.insert_eq_self.mpr (List.mem_toFinset.mpr hm)).symm⟩
  · simp only [if_neg hm]
    constructor
    · simp [List.nodup_append, h, hm]
    · rw [List.toFinset_append]
      simp [Finset.union_comm, Finset.insert_eq]

theorem counter_update_keys_props (ks : List String) :
    ∀ (c : List (String × Nat)), (counter_keys c).Nodup →
      (counter_keys (counter_update c ks)).Nodup ∧
      (counter_keys (counter_update c ks)).toFinset
        = (counter_keys c).toFinset ∪ ks.toFinset := by
  induction ks with
  | nil =>
    intro c h
    simp [counter_update, h]
  | cons k ks ih =>
    intro c h
    have h1 := counter_update_one_keys_props c k h
    have h2 := ih (counter_update_one c k) h1.1
    have hc : counter_update c (k :: ks)
        = counter_update (counter_update_one c k) ks := rfl
    refine ⟨hc ▸ h2.1, ?_⟩
    rw [hc, h2.2, h1.2, List.toFinset_cons, Finset.insert_union,
      Finset.union_insert]

theorem length_counter_eq_card (ks : List String) :
    (counter_update [] ks).length = ks.toFinset.card := by
  have h := counter_update_keys_props ks [] (by simp [counter_keys])
  have hlen : (counter_update [] ks).length
      = (counter_keys (counter_update [] ks)).length := by
    simp [counter_keys]
  rw [hlen, ← List.toFinset_card_of_nodup h.1, h.2]
  simp [counter_keys]

theorem analyze_fold_go (vehicles : List (Option String)) :
    ∀ (c : List (String × Nat)) (n : Nat),
      vehicles.foldl
        (fun acc v =>
          let es := vehicle_edges v
          (counter_update acc.1 es, acc.2 + es.length)) (c, n)
      = (counter_update c (all_edges vehicles),
         n + (vehicles.map fun v => (vehicle_edges v).length).sum) := by
  induction vehicles with
  | nil =>
    intro c n
    simp [all_edges, counter_update]
  | cons v vs ih =>
    intro c n
    simp only [List.foldl_cons]
    rw [ih, Prod.mk.injEq]
    constructor
    · simp [all_edges, counter_update, List.foldl_append]
    · simp only [List.map_cons, List.sum_cons]
      omega

theorem analyze_fold_eq (vehicles : List (Option String)) :
    analyze_fold vehicles
      = (counter_update [] (all_edges vehicles),
         (vehicles.map fun v => (vehicle_edges v).length).sum) := by
  simpa [analyze_fold] using analyze_fold_go vehicles [] 0

theorem not_mem_append₁ {x y : String} {wr : List String}
    (hw : x ∉ wr) (hy : x ≠ y) : x ∉ wr ++ [y] := by
  simp only [List.mem_append, List.mem_cons, List.not_mem_nil, or_false]
  push_neg
  exact ⟨hw, hy⟩

theorem not_mem_append₂ {x y z : String} {wr : List String}
    (hw : x ∉ wr) (hy : x ≠ y) (hz : x ≠ z) : x ∉ wr ++ [y, z] := by
  simp only [List.mem_append, List.mem_cons, List.not_mem_nil, or_false]
  push_neg
  exact ⟨hw, hy, hz⟩

theorem step7_no_ini (inp : PipelineInput) (inv : List Tool) (wr : List String)
    (h : extract_boundary inp.net_location = none)
    (hw : inp.filename ++ ".omnetpp.ini" ∉ wr) :
    inp.filename ++ ".omnetpp.ini" ∉ (create_files_step7 inp inv wr).written := by
  unfold create_files_step7
  rw [h]
  exact not_mem_append₂ hw (ne_of_suffix_ne _ (by decide))
    (ne_of_suffix_ne _ (by decide))

theorem step6_no_ini (inp : PipelineInput) (inv : List Tool) (wr : List String)
    (h : extract_boundary inp.net_location = none)
    (hw : inp.filename ++ ".omnetpp.ini" ∉ wr) :
    inp.filename ++ ".omnetpp.ini" ∉ (create_files_step6 inp inv wr).written := by
  unfold create_files_step6
  exact step7_no_ini inp inv _ h
    (not_mem_append₁ hw (ne_of_suffix_ne _ (by decide)))

theorem step5_no_ini (inp : PipelineInput) (inv : List Tool) (wr : List String)
    (h : extract_boundary inp.net_location = none)
    (hw : inp.filename ++ ".omnetpp.ini" ∉ wr) :
    inp.filename ++ ".omnetpp.ini" ∉ (create_files_step5 inp inv wr).written := by
  unfold create_files_step5
  cases hd : inp.tools.duarouter with
  | true =>
    simp only [if_true]
    exact step6_no_ini inp _ _ h
      (not_mem_append₂ hw (ne_of_suffix_ne _ (by decide))
        (ne_of_suffix_ne _ (by decide)))
  | false =>
    simp only [Bool.false_eq_true, if_false]
    exact hw

theorem step4_no_ini (inp : PipelineInput) (inv : List Tool) (wr : List String)
    (h : extract_boundary inp.net_location = none)
    (hw : inp.filename ++ ".omnetpp.ini" ∉ wr) :
    inp.filename ++ ".omnetpp.ini" ∉ (create_files_step4 inp inv wr).written := by
  unfold create_files_step4
  cases htp : trip_period inp.end_time inp.num_trips with
  | none => exact hw
  | some p =>
    cases ht : inp.tools.randomTrips with
    | true =>
      simp only [if_true]
      exact step5_no_ini inp _ _ h
        (not_mem_append₁ hw (ne_of_suffix_ne _ (by decide)))
    | false =>
      simp only [Bool.false_eq_true, if_false]
      exact hw

theorem step3_no_ini (inp : PipelineInput) (inv : List Tool) (wr : List String)
    (h : extract_boundary inp.net_location = none)
    (hw : inp.filename ++ ".omnetpp.ini" ∉ wr) :
    inp.filename ++ ".omnetpp.ini" ∉ (create_files_step3 inp inv wr).written := by
  unfold create_files_step3
  apply step4_no_ini inp _ _ h
  cases hp : inp.typemap_exists && inp.tools.polyconvert with
  | true =>
    simp only [hp, if_true]
    exact not_mem_append₁ hw (ne_of_suffix_ne _ (by decide))
  | false =>
    simp only [hp, Bool.false_eq_true, if_false]
    exact hw

theorem step2_no_ini (inp : PipelineInput) (inv : List Tool) (wr : List String)
    (h : extract_boundary inp.net_location = none)
    (hw : inp.filename ++ ".omnetpp.ini" ∉ wr) :
    inp.filename ++ ".omnetpp.ini" ∉ (create_files_step2 inp inv wr).written := by
  unfold create_files_step2
  cases hn : inp.tools.netconvert with
  | true =>
    simp only [if_true]
    exact step3_no_ini inp _ _ h
      (not_mem_append₁ hw (ne_of_suffix_ne _ (by decide)))
  | false =>
    simp only [Bool.false_eq_true, if_false]
    exact hw

theorem create_files_no_ini (inp : PipelineInput)
    (h : extract_boundary inp.net_location = none) :
    inp.filename ++ ".omnetpp.ini" ∉ (create_files inp).written := by
  unfold create_files
  cases hd : should_download inp.osm_exists inp.osm_size with
  | true =>
    simp only [if_true]
    cases hg : inp.tools.osmGet with
    | true =>
      simp only [if_true]
      cases hf : inp.download_output_found with
      | true =>
        simp only [if_true]
        apply step2_no_ini inp _ _ h
        intro hmem
        simp only [List.mem_cons, List.not_mem_nil, or_false] at hmem
        exact ne_of_suffix_ne _ (by decide) hmem
      | false =>
        simp only [Bool.false_eq_true, if_false]
        exact List.not_mem_nil _
    | false =>
      simp only [Bool.false_eq_true, if_false]
      exact List.not_mem_nil _
  | false =>
    simp only [Bool.false_eq_true, if_false]
    exact step2_no_ini inp _ _ h (List.not_mem_nil _)

/-- C1: the ComputeGeometry and WriteConfigs stages compute, for a net
bounding rectangle of width W and height H with padding fraction 0.50, a
playground of W + W times 0.50 by H + H times 0.50 with the RSU reference at
W over 2 plus half the buffer (and likewise for y), and embed exactly these
values together with the simulation duration in the generated detailed
parameter file; for convBoundary 0,0,1000,500 the file embeds playground
1500 by 750 and RSU position 750, 375. -/
theorem C1_geometry_embedding :
    (∀ (fn : String) (b : Boundary) (t : ℤ),
      (step7_ini fn b t).playgroundSizeX
          = (b.max_x - b.min_x) + (b.max_x - b.min_x) * (0.50 : ℚ) ∧
      (step7_ini fn b t).playgroundSizeY
          = (b.max_y - b.min_y) + (b.max_y - b.min_y) * (0.50 : ℚ) ∧
      (step7_ini fn b t).rsu_mobility_x
          = (b.max_x - b.min_x) / 2 + (b.max_x - b.min_x) * (0.50 : ℚ) / 2 ∧
      (step7_ini fn b t).rsu_mobility_y
          = (b.max_y - b.min_y) / 2 + (b.max_y - b.min_y) * (0.50 : ℚ) / 2 ∧
      (step7_ini fn b t).sim_time_limit = t) ∧
    step7_write_ini "VeinsScenario"
        (.location (some [some 0, some 0, some 1000, some 500])) 3600
      = some (generate_omnetpp_ini "VeinsScenario" 1500 750 750 375 3600) := by
  constructor
  · intro fn b t
    refine ⟨?_, ?_, ?_, ?_, rfl⟩ <;>
      simp only [step7_ini, generate_omnetpp_ini, play_ground_x_final,
        play_ground_y_final, rsu_x_shifted, rsu_y_shifted, original_width,
        original_height, BUFFER_SIZE_X, BUFFER_SIZE_Y, OFFSET_X, OFFSET_Y,
        PERCENTAGE_INCREASE]
  · simp only [step7_write_ini, extract_boundary, Option.map_some',
      step7_ini, generate_omnetpp_ini, Option.some.injEq, OmnetppIni.mk.injEq,
      play_ground_x_final, play_ground_y_final, rsu_x_shifted, rsu_y_shifted,
      original_width, original_height, BUFFER_SIZE_X, BUFFER_SIZE_Y, OFFSET_X,
      OFFSET_Y, PERCENTAGE_INCREASE]
    norm_num

/-- C2 counterexample: the claim asserts that an existing map file of
exactly 10240 bytes causes the download to be skipped; in the code the
cache-hit test is strictly greater than MIN_OSM_FILE_SIZE, so at exactly
10240 bytes a download is attempted. -/
theorem C2_counterexample :
    MIN_OSM_FILE_SIZE = 10240 ∧ should_download true 10240 = true := by decide

/-- C2 amended: the download is skipped exactly when a map file exists at
the expected path with size strictly greater than 10240 bytes; files of
10239 and of exactly 10240 bytes trigger a download attempt, a file of
10241 bytes is reused, and an absent file always triggers a download. -/
theorem C2_amended_strict_threshold :
    (∀ (e : Bool) (s : Nat),
      should_download e s = false ↔ e = true ∧ 10240 < s) ∧
    should_download true 10241 = false ∧
    should_download true 10240 = true ∧
    should_download true 10239 = true ∧
    should_download false 20000 = true := by
  refine ⟨?_, by decide, by decide, by decide, by decide⟩
  intro e s
  cases e with
  | false => simp [should_download]
  | true =>
    simp only [should_download, MIN_OSM_FILE_SIZE, if_true]
    split <;> rename_i hs <;> simp <;> omega

/-- C3 code bug: the research summary divides the reroute count by the trip
count with no guard, so an empty trip record set makes the comparison run
fail with a division fault instead of reporting a reroute rate of 0; the
adjacent mean-speed percentage in the same report is guarded, substituting
0. -/
theorem C3_reroute_rate_unguarded :
    reroute_rate_pct (parse_trip []) = none ∧
    speed_reduction_pct 0 0 = 0 := by decide

/-- C4 code bug: the GenerateTrips stage computes the spawn period as
duration divided by vehicle count with no guard and no ConfigError:
vehicleCount = 0 raises a bare division fault, and a negative vehicleCount
is not rejected at all, yielding a negative period. -/
theorem C4_trip_period_unguarded :
    trip_period 3600 0 = none ∧
    trip_period 3600 100 = some 36 ∧
    trip_period 3600 (-5) = some (-720) := by
  refine ⟨rfl, ?_, ?_⟩ <;>
    · simp only [trip_period]
      rw [if_neg (by norm_num)]
      norm_num

/-- C5 counterexample: the claim asserts the stage also fails when the
computed width or height is not positive; the code performs no such check,
so the degenerate boundary 0,0,0,0 parses and the detailed parameter file
is written with a zero-sized playground. -/
theorem C5_counterexample :
    original_width ⟨0, 0, 0, 0⟩ ≤ 0 ∧ original_height ⟨0, 0, 0, 0⟩ ≤ 0 ∧
    step7_write_ini "VeinsScenario"
        (.location (some [some 0, some 0, some 0, some 0])) 3600
      = some (generate_omnetpp_ini "VeinsScenario" 0 0 0 0 3600) := by
  refine ⟨by norm_num [original_width], by norm_num [original_height], ?_⟩
  simp only [step7_write_ini, extract_boundary, Option.map_some',
    step7_ini, generate_omnetpp_ini, Option.some.injEq, OmnetppIni.mk.injEq,
    play_ground_x_final, play_ground_y_final, rsu_x_shifted, rsu_y_shifted,
    original_width, original_height, BUFFER_SIZE_X, BUFFER_SIZE_Y, OFFSET_X,
    OFFSET_Y, PERCENTAGE_INCREASE]
  norm_num

/-- C5 amended: the ComputeGeometry stage fails exactly when the bounding
coordinate block is missing or cannot be parsed (no check is made on the
computed width or height), and every such failure prevents the detailed
parameter file from ever being written in that run. -/
theorem C5_amended_geometry_failure :
    (∀ (fn : String) (loc : NetLocation) (t : ℤ),
      step7_write_ini fn loc t = none ↔ extract_boundary loc = none) ∧
    (∀ inp : PipelineInput, extract_boundary inp.net_location = none →
      inp.filename ++ ".omnetpp.ini" ∉ (create_files inp).written) := by
  constructor
  · intro fn loc t
    simp [step7_write_ini]
  · exact create_files_no_ini

/-- C5 witness: a run whose network file has no location element never has
its detailed parameter file written. -/
theorem C5_witness :
    "VeinsScenario" ++ ".omnetpp.ini"
      ∉ (create_files
          { filename := "VeinsScenario", bbox := zero_bbox, end_time := 3600,
            num_trips := 100, osm_exists := true, osm_size := 20000,
            download_output_found := true, typemap_exists := true,
            net_location := .missing,
            tools := ⟨true, true, true, true, true⟩ }).written :=
  C5_amended_geometry_failure.2 _ rfl

/-- C6: the edge-usage analyzer counts one traversal per occurrence of each
whitespace-separated identifier in every vehicle route, totalTraversals is
the sum of the per-record edge-list lengths, totalUniqueEdges is the number
of distinct identifiers, the ranking has length at most topN and is ordered
descending by count with ties kept in first-seen order (any two equal-count
entries of the counter stay in counter order in the sorted ranking); for a
vehicle traversing a b a c b a with topN 2 the result is a:3, b:2 with 6
traversals over 3 unique edges. -/
theorem C6_edge_usage_analyzer :
    (∀ (vehicles : List (Option String)) (top_n : Nat),
      (most_used_route_finder vehicles top_n).totalTraversals
          = (vehicles.map fun v => (vehicle_edges v).length).sum ∧
      (most_used_route_finder vehicles top_n).totalUniqueEdges
          = (all_edges vehicles).toFinset.card ∧
      (most_used_route_finder vehicles top_n).top.length ≤ top_n ∧
      (most_used_route_finder vehicles top_n).top.Pairwise
          (fun a b => b.2 ≤ a.2) ∧
      (∀ p q : String × Nat,
        List.Sublist [p, q] (analyze_fold vehicles).1 → p.2 = q.2 →
        List.Sublist [p, q] ((analyze_fold vehicles).1.mergeSort count_ge))) ∧
    most_used_route_finder [some "a b a c b a"] 2
      = ⟨[("a", 3), ("b", 2)], 3, 6⟩ := by
  constructor
  · intro vehicles top_n
    refine ⟨?_, ?_, ?_, ?_, ?_⟩
    · simp [most_used_route_finder, analyze_fold_eq]
    · simp [most_used_route_finder, analyze_fold_eq, length_counter_eq_card]
    · simp only [most_used_route_finder, most_common]
      rw [List.length_take]
      exact Nat.min_le_left _ _
    · have hs := List.sorted_mergeSort count_ge_trans count_ge_total
        ((analyze_fold vehicles).1)
      have ht : List.Sublist (most_used_route_finder vehicles top_n).top
          (((analyze_fold vehicles).1).mergeSort count_ge) := by
        simp only [most_used_route_finder, most_common]
        exact List.take_sublist _ _
      exact (List.Pairwise.sublist ht hs).imp fun h => by
        simpa [count_ge] using h
    · intro p q hsub hpq
      exact List.pair_sublist_mergeSort count_ge_trans count_ge_total
        (by simp [count_ge, hpq]) hsub
  · have h1 : (analyze_fold [some "a b a c b a"]).1
        = [("a", 3), ("b", 2), ("c", 1)] := by decide
    have h2 : (analyze_fold [some "a b a c b a"]).2 = 6 := by decide
    simp only [most_used_route_finder, most_common, h1, h2]
    rw [List.mergeSort_of_sorted (by decide)]
    rfl

/-- C6 witness: in a route file with two tied edges x and y, first seen in
that order, the stable descending sort keeps x before y. -/
theorem C6_witness :
    List.Sublist [(("x" : String), 1), ("y", 1)]
      (((analyze_fold [some "x y"]).1).mergeSort count_ge) := by
  apply (C6_edge_usage_analyzer.1 [some "x y"] 2).2.2.2.2 ("x", 1) ("y", 1)
  · have h : (analyze_fold [some "x y"]).1 = [("x", 1), ("y", 1)] := by decide
    rw [h]
  · rfl

/-- C7 counterexample: the claim asserts the AcquireMap stage itself fails
with an acquisition error when given the all-zero sentinel box and no valid
cached file; the stage performs no such check and invokes the downloader
with the all-zero box. -/
theorem C7_counterexample :
    zero_bbox = ⟨0, 0, 0, 0⟩ ∧
    acquire_map zero_bbox false 0 = .download zero_bbox := by
  exact ⟨rfl, rfl⟩

/-- C7 amended: the zero-box guard lives upstream of the worker: the
all-zero sentinel is substituted by handle_bounds only when a valid cached
map file exists, and the AcquireMap stage then reuses that file, so under an
unchanged filesystem the downloader is never invoked with the sentinel;
with no selection and no valid file the pipeline is stopped before the
worker starts rather than failing inside AcquireMap. -/
theorem C7_amended_sentinel (e : Bool) (s : Nat) (b : Bbox)
    (h : handle_bounds none e s = some b) :
    b = zero_bbox ∧ acquire_map b e s = .useExisting := by
  simp only [handle_bounds] at h
  cases e with
  | false => simp at h
  | true =>
    by_cases hs : MIN_OSM_FILE_SIZE < s
    · simp [hs] at h
      refine ⟨h.symm, ?_⟩
      rw [← h]
      simp [acquire_map, should_download, hs]
    · simp [hs] at h

/-- C7 witness: with no selection and a valid 10241-byte cached file, the
worker is started with the sentinel and reuses the existing file. -/
theorem C7_witness :
    zero_bbox = zero_bbox ∧ acquire_map zero_bbox true 10241 = .useExisting :=
  C7_amended_sentinel true 10241 zero_bbox rfl

/-- C8: when the netconvert stage fails and Step 1 completed, create_files
returns failure naming the network-conversion stage, no later external tool
is invoked (netconvert is the last invocation), and no trip, route, launch,
sumo configuration or detailed parameter file has been written. -/
theorem C8_convert_network_abort (inp : PipelineInput)
    (h1 : should_download inp.osm_exists inp.osm_size = false ∨
      (inp.tools.osmGet = true ∧ inp.download_output_found = true))
    (h2 : inp.tools.netconvert = false) :
    (create_files inp).outcome = .fail .netconvert ∧
    (create_files inp).invoked.getLast? = some .netconvert ∧
    Tool.polyconvert ∉ (create_files inp).invoked ∧
    Tool.randomTrips ∉ (create_files inp).invoked ∧
    Tool.duarouter ∉ (create_files inp).invoked ∧
    inp.filename ++ ".trip.xml" ∉ (create_files inp).written ∧
    inp.filename ++ ".rou.xml" ∉ (create_files inp).written ∧
    inp.filename ++ ".launchd.xml" ∉ (create_files inp).written ∧
    inp.filename ++ ".sumo.cfg" ∉ (create_files inp).written ∧
    inp.filename ++ ".omnetpp.ini" ∉ (create_files inp).written := by
  cases hd : should_download inp.osm_exists inp.osm_size with
  | false =>
    have hcf : create_files inp = ⟨.fail .netconvert, [.netconvert], []⟩ := by
      simp [create_files, hd, create_files_step2, h2]
    rw [hcf]
    refine ⟨rfl, rfl, by simp, by simp, by simp, by simp, by simp, by simp,
      by simp, by simp⟩
  | true =>
    rcases h1 with h1 | ⟨hg, hf⟩
    · rw [hd] at h1
      simp at h1
    · have hcf : create_files inp
          = ⟨.fail .netconvert, [.osmGet, .netconvert],
             [inp.filename ++ ".osm"]⟩ := by
        simp [create_files, hd, hg, hf, create_files_step2, h2]
      rw [hcf]
      refine ⟨rfl, rfl, by simp, by simp, by simp, ?_, ?_, ?_, ?_, ?_⟩ <;>
        · intro hc
          simp only [List.mem_cons, List.not_mem_nil, or_false] at hc
          exact ne_of_suffix_ne _ (by decide) hc

/-- C8 witness: a concrete run whose netconvert invocation fails aborts at
the network-conversion stage with no route or configuration file written. -/
theorem C8_witness :
    (create_files
        { filename := "VeinsScenario", bbox := zero_bbox, end_time := 3600,
          num_trips := 100, osm_exists := false, osm_size := 0,
          download_output_found := true, typemap_exists := true,
          net_location := .missing,
          tools := ⟨true, false, true, true, true⟩ }).outcome
      = .fail .netconvert ∧
    "VeinsScenario" ++ ".rou.xml"
      ∉ (create_files
          { filename := "VeinsScenario", bbox := zero_bbox, end_time := 3600,
            num_trips := 100, osm_exists := false, osm_size := 0,
            download_output_found := true, typemap_exists := true,
            net_location := .missing,
            tools := ⟨true, false, true, true, true⟩ }).written := by
  have h := C8_convert_network_abort
    { filename := "VeinsScenario", bbox := zero_bbox, end_time := 3600,
      num_trips := 100, osm_exists := false, osm_size := 0,
      download_output_found := true, typemap_exists := true,
      net_location := .missing,
      tools := ⟨true, false, true, true, true⟩ }
    (Or.inr ⟨rfl, rfl⟩) rfl
  exact ⟨h.1, h.2.2.2.2.2.2.1⟩

/-- C9: a tripinfo record is counted as rerouted exactly when its rerouteNo
attribute is present with a value strictly greater than 0; a record lacking
the attribute defaults to 0 and is not rerouted, and the reroute count
never exceeds the record count. -/
theorem C9_parse_trip_reroutes (trips : List Tripinfo) :
    (parse_trip trips).reroutes
        = trips.countP (fun t =>
            match t.rerouteNo with
            | some n => decide (0 < n)
            | none => false) ∧
    (parse_trip trips).count = trips.length ∧
    (parse_trip trips).reroutes ≤ (parse_trip trips).count := by
  refine ⟨?_, rfl, ?_⟩
  · simp only [parse_trip]
    congr 1
    funext t
    cases h : t.rerouteNo <;> simp [h]
  · simp only [parse_trip]
    exact List.countP_le_length _

/-- C10 counterexample: the claim asserts the route file of every run
survives cleanup; for the stem named routes the generated route file is the
literal temp-file name routes.rou.xml and cleanup removes it. -/
theorem C10_counterexample :
    "routes" ++ ".rou.xml" ∈ cleanup_targets "routes" ∧
    cleanup "routes" ["routes" ++ ".rou.xml", "routes" ++ ".osm"]
      = ["routes" ++ ".osm"] := by decide

/-- C10 amended: cleanup removes only the three temp files routes.rou.xml,
the rou.alt file and the trip file (so the trip file never persists), and
for every stem other than the literal routes all the other generated
artifacts, the route file included, are left unchanged. -/
theorem C10_amended_cleanup (fn : String) (files : List String) :
    (∀ f ∈ files, f ∉ cleanup fn files → f ∈ cleanup_targets fn) ∧
    fn ++ ".trip.xml" ∉ cleanup fn files ∧
    fn ++ ".rou.alt.xml" ∉ cleanup fn files ∧
    "routes.rou.xml" ∉ cleanup fn files ∧
    (fn ≠ "routes" →
      ∀ sfx ∈ ([".osm", ".net.xml", ".poly.xml", ".rou.xml", ".launchd.xml",
        ".sumo.cfg", ".omnetpp.ini"] : List String),
        fn ++ sfx ∈ files → fn ++ sfx ∈ cleanup fn files) := by
  refine ⟨?_, ?_, ?_, ?_, ?_⟩
  · intro f hf hnc
    by_contra hnt
    exact hnc (List.mem_filter.mpr ⟨hf, by simpa using hnt⟩)
  · intro hmem
    have h2 := (List.mem_filter.mp hmem).2
    simp only [decide_eq_true_eq] at h2
    exact h2 (by simp [cleanup_targets])
  · intro hmem
    have h2 := (List.mem_filter.mp hmem).2
    simp only [decide_eq_true_eq] at h2
    exact h2 (by simp [cleanup_targets])
  · intro hmem
    have h2 := (List.mem_filter.mp hmem).2
    simp only [decide_eq_true_eq] at h2
    exact h2 (by simp [cleanup_targets])
  · intro hfn sfx hsfx hmem
    refine List.mem_filter.mpr ⟨hmem, ?_⟩
    simp only [decide_eq_true_eq, cleanup_targets, List.mem_cons,
      List.not_mem_nil, or_false]
    push_neg
    refine ⟨?_, ne_of_suffix_ne _ ?_, ne_of_suffix_ne _ ?_⟩
    · fin_cases hsfx
      · intro hc
        exact absurd (data_suffix_of_append_eq hc) (by decide)
      · intro hc
        exact absurd (data_suffix_of_append_eq hc) (by decide)
      · intro hc
        exact absurd (data_suffix_of_append_eq hc) (by decide)
      · intro hc
        apply hfn
        exact string_append_right_cancel (s := ".rou.xml")
          (hc.trans (by rfl : ("routes.rou.xml" : String)
            = "routes" ++ ".rou.xml"))
      · intro hc
        exact absurd (data_suffix_of_append_eq hc) (by decide)
      · intro hc
        exact absurd (data_suffix_of_append_eq hc) (by decide)
      · intro hc
        exact absurd (data_suffix_of_append_eq hc) (by decide)
    · fin_cases hsfx <;> decide
    · fin_cases hsfx <;> decide

/-- C10 witness: for the default stem the route file survives cleanup while
the trip file is removed. -/
theorem C10_witness :
    "VeinsScenario" ++ ".trip.xml"
      ∉ cleanup "VeinsScenario"
          ["VeinsScenario.rou.xml", "VeinsScenario.trip.xml"] ∧
    "VeinsScenario" ++ ".rou.xml"
      ∈ cleanup "VeinsScenario"
          ["VeinsScenario.rou.xml", "VeinsScenario.trip.xml"] := by
  have h := C10_amended_cleanup "VeinsScenario"
    ["VeinsScenario.rou.xml", "VeinsScenario.trip.xml"]
  exact ⟨h.2.1, h.2.2.2.2 (by decide) ".rou.xml" (by decide) (by decide)⟩
